import Mathlib

/-!
Verification development for the Placement-Predictor quiz pipeline
(`predictor/views.py`): question generation (`generate_questions_from_text`,
`generate_basic_questions`), answer verification (`verify_answer_with_content`),
quiz grading (`student_submit_quiz`) and result analysis
(`student_quiz_results`).

Python strings are modelled as Lean `String` (ASCII behaviour for
case/character-class operations), Python floats as `ℚ`, Python sets as
deduplicated lists, and the external Gemini service plus the pseudo-random
source as explicit oracle parameters.
-/

/-! ### Python string primitives -/

/-- Python whitespace test (`str.isspace` over the ASCII range): space, tab,
newline, carriage return, vertical tab, form feed. -/
def pyIsSpace (c : Char) : Bool :=
  c = ' ' || c = '\t' || c = '\n' || c = '\r' || c = '\x0b' || c = '\x0c'

/-- Membership in Python's `string.punctuation`: the ASCII printable
characters that are neither alphanumeric nor space; code points 33–47,
58–64, 91–96 and 123–126. -/
def pyIsPunct (c : Char) : Bool :=
  (33 ≤ c.toNat && c.toNat ≤ 47) || (58 ≤ c.toNat && c.toNat ≤ 64) ||
  (91 ≤ c.toNat && c.toNat ≤ 96) || (123 ≤ c.toNat && c.toNat ≤ 126)

/-- Python `str.lower` (ASCII). -/
def pyLower (s : String) : String := ⟨s.data.map Char.toLower⟩

/-- Python `str.strip()`: drop leading and trailing whitespace. -/
def pyStrip (s : String) : String :=
  ⟨((s.data.dropWhile pyIsSpace).reverse.dropWhile pyIsSpace).reverse⟩

/-- `s.translate(str.maketrans('', '', string.punctuation))`: delete every
punctuation character. -/
def removePunct (s : String) : String := ⟨s.data.filter (fun c => !pyIsPunct c)⟩

/-- Python slicing `s[:n]`. -/
def pyTake (n : Nat) (s : String) : String := ⟨s.data.take n⟩

/-- Worker for `pySplitWs`: `cur` is the current word accumulated in reverse. -/
def wsGo : List Char → List Char → List (List Char)
  | [], cur => if cur = [] then [] else [cur.reverse]
  | c :: cs, cur =>
    if pyIsSpace c then
      if cur = [] then wsGo cs [] else cur.reverse :: wsGo cs []
    else wsGo cs (c :: cur)

/-- Python `str.split()` with no argument: split on whitespace runs,
discarding empty pieces. -/
def pySplitWs (s : String) : List String := (wsGo s.data []).map fun l => ⟨l⟩

/-- `needle.isPrefixOf`-based substring test: Python `needle in hay`. -/
def containsSub (hay needle : List Char) : Bool :=
  needle.isPrefixOf hay ||
    match hay with
    | [] => false
    | _ :: t => containsSub t needle

/-- Python `needle in hay` on strings. -/
def strContains (hay needle : String) : Bool := containsSub hay.data needle.data

/-- Worker for `pyDedup`: keep the first occurrence of each element. -/
def pyDedupGo (seen : List String) : List String → List String
  | [] => []
  | x :: xs => if x ∈ seen then pyDedupGo seen xs else x :: pyDedupGo (x :: seen) xs

/-- The distinct elements of a list in first-occurrence order; models the
construction of a Python `set` (only cardinalities and membership of the
sets are ever consumed). -/
def pyDedup (l : List String) : List String := pyDedupGo [] l

/-- `len(set(l))`. -/
def setCard (l : List String) : Nat := (pyDedup l).length

/-- The elements of `set(a) & set(b)` (in first-occurrence order of `a`). -/
def interList (a b : List String) : List String :=
  (pyDedup a).filter fun x => decide (x ∈ b)

/-- `len(set(a) & set(b))`. -/
def interCard (a b : List String) : Nat := (interList a b).length

/-- Tokens of `s` (whitespace split) whose length exceeds `k`. -/
def wordsGT (k : Nat) (s : String) : List String :=
  (pySplitWs s).filter fun w => k < w.length

/-- Python `s.count(' ')`. -/
def countSpaces (s : String) : Nat := s.data.count ' '

/-! ### The answer verifier (`verify_answer_with_content`) -/

/-- A persisted quiz question, restricted to the fields the verifier reads. -/
structure Question where
  question_type : String
  question_text : String
  correct_answer : String
deriving DecidableEq, Repr

/-- Oracle for the external Gemini semantic-verification service.
`available` models `genai and GEMINI_API_KEY` being truthy; `respond` models
one `generate_content` call on the verification prompt built from
(pdf content, question text, expected answer, student answer) followed by
JSON parsing and field extraction — `none` stands for any raised exception
(network, auth, quota, unparseable JSON), `some (c, r)` for a successfully
extracted verdict and reason. -/
structure AIEnv where
  available : Bool
  respond : String → String → String → String → Option (Bool × String)

/-- Result of one verifier call, instrumented with the number of external
service calls issued (`aiCalls`). -/
structure Verdict where
  correct : Bool
  reason : String
  aiCalls : Nat
deriving DecidableEq, Repr

/-- The normalization applied to fill-blank/short-answer strings:
lowercase, delete punctuation, strip. -/
def normQ (s : String) : String := pyStrip (removePunct (pyLower s))

/-- Python `f"{r:.0%}"`: the ratio as a whole-number percentage string
(rounding to nearest; the source formats a float, whose tie-breaking at
exact half-percent values is not observable by any claim). -/
def fmtPct (r : ℚ) : String := toString (round (r * 100)) ++ "%"

/-- Python `f"{x:.0f}"` for the nonnegative values that occur here. -/
def fmtF0 (x : ℚ) : String := toString (round x)

/-- Keyword set builder of the short-answer fallback:
`set(word.lower() for word in s.split() if len(word) > 3)`. -/
def kwSet (s : String) : List String :=
  pyDedup (((pySplitWs s).filter fun w => 3 < w.length).map pyLower)

/-- Final tier of `verify_answer_with_content`:
`return correct_answer.lower() in student_answer.lower(), "Default matching"`. -/
def defaultMatch (studentAnswer correctAnswer : String) (calls : Nat) : Verdict :=
  ⟨strContains (pyLower studentAnswer) (pyLower correctAnswer), "Default matching", calls⟩

/-- The code that follows the AI tier of `verify_answer_with_content`: the
short-answer keyword fallback, then the default substring tier.  `calls` is
the number of external calls already issued on this path. -/
def shortAnswerFallback (q : Question) (studentAnswer correctAnswer : String)
    (calls : Nat) : Verdict :=
  if q.question_type = "short_answer" then
    let correctKeywords := kwSet correctAnswer
    let answerKeywords := kwSet studentAnswer
    if correctKeywords = [] then
      ⟨decide (10 < studentAnswer.length), "Length check", calls⟩
    else
      let matchRatio : ℚ := (interCard correctKeywords answerKeywords : ℚ) / correctKeywords.length
      if (0.4 : ℚ) ≤ matchRatio then
        ⟨true, "Match: " ++ fmtF0 (matchRatio * 100) ++ "%", calls⟩
      else
        ⟨false, "Low match: " ++ fmtF0 (matchRatio * 100) ++ "%", calls⟩
  else defaultMatch studentAnswer correctAnswer calls

/-- `verify_answer_with_content(question, student_answer, pdf_content)`,
instrumented with the external-call count. -/
def verify (env : AIEnv) (q : Question) (studentAnswer0 pdfContent : String) : Verdict :=
  if pyStrip studentAnswer0 = "" then ⟨false, "No answer provided", 0⟩
  else
    let studentAnswer := pyStrip studentAnswer0
    let correctAnswer := pyStrip q.correct_answer
    if q.question_type = "mcq" then
      ⟨decide (studentAnswer = correctAnswer), "Exact match required for MCQ", 0⟩
    else if q.question_type = "true_false" ∨ q.question_type = "tf" then
      ⟨decide (pyLower studentAnswer = pyLower correctAnswer), "Exact match required for True/False", 0⟩
    else if q.question_type = "fill_blank" ∨ q.question_type = "short_answer" then
      let correctNormalized := normQ correctAnswer
      let answerNormalized := normQ studentAnswer
      if correctNormalized = answerNormalized then
        ⟨true, "Answer matches expected response", 0⟩
      else
        let fbResult : Option Verdict :=
          if q.question_type = "fill_blank" then
            let correctWords := wordsGT 2 correctNormalized
            let answerWords := wordsGT 2 answerNormalized
            if correctWords = [] then
              some ⟨decide (correctNormalized = answerNormalized), "Exact match required", 0⟩
            else if strContains answerNormalized correctNormalized ∨
                strContains correctNormalized answerNormalized then
              some ⟨true, "Answer contains expected response", 0⟩
            else
              let commonCount := interCard correctWords answerWords
              let correctCount := setCard correctWords
              let matchRatio : ℚ := (commonCount : ℚ) / correctCount
              if 0 < correctCount ∧ (0.8 : ℚ) ≤ matchRatio ∧ 0 < commonCount then
                some ⟨true, "High similarity (" ++ fmtPct matchRatio ++ " words match)", 0⟩
              else if commonCount = 0 then
                some ⟨false, "Answer does not match expected response", 0⟩
              else none
          else none
        match fbResult with
        | some v => v
        | none =>
          if env.available = true ∧ pdfContent ≠ "" then
            match env.respond pdfContent q.question_text correctAnswer studentAnswer with
            | some (c, r) => ⟨c, r, 1⟩
            | none => shortAnswerFallback q studentAnswer correctAnswer 1
          else shortAnswerFallback q studentAnswer correctAnswer 0
    else defaultMatch studentAnswer correctAnswer 0

/-- An environment with no configured external service (e.g. no API key). -/
def noAI : AIEnv := ⟨false, fun _ _ _ _ => none⟩

/-! ### Question generation (`generate_basic_questions`, `generate_questions_from_text`) -/

/-- One generated question record (the dict produced by both generators;
padding records in the AI path omit `reference_text`, whose later read uses
default `""`). -/
structure GenQuestion where
  question_text : String
  correct_answer : String
  question_type : String
  options : List String
  reference_text : String
deriving DecidableEq, Repr

/-- Whether the most recently read character (head of the reversed current
segment) is sentence-ending punctuation — the lookbehind `(?<=[.!?])`. -/
def headSentPunct : List Char → Bool
  | p :: _ => p = '.' || p = '!' || p = '?'
  | [] => false

/-- Worker for `splitSentences`; `cur` is the current segment in reverse and
`eating` is true while inside a whitespace run that follows sentence-ending
punctuation (the delimiter of `re.split(r'(?<=[.!?])\s+', text)`). -/
def sentGo : List Char → List Char → Bool → List (List Char)
  | [], cur, _ => [cur.reverse]
  | c :: cs, cur, eating =>
    if eating then
      if pyIsSpace c then sentGo cs cur true
      else sentGo cs [c] false
    else if pyIsSpace c && headSentPunct cur then
      cur.reverse :: sentGo cs [] true
    else sentGo cs (c :: cur) false

/-- `re.split(r'(?<=[.!?])\s+', text)`: split on maximal whitespace runs
preceded by `.`, `!` or `?`. -/
def splitSentences (text : String) : List String :=
  (sentGo text.data [] false).map fun l => ⟨l⟩

/-- `re.match(r'^(Page|\d+|Figure|Fig\.|Table|Diagram)', s, re.IGNORECASE)`:
the prefix test of the good-sentence filter. -/
def noiseStart (s : String) : Bool :=
  let l := pyLower s
  ["page", "figure", "fig.", "table", "diagram"].any (fun p => String.isPrefixOf p l) ||
    (match s.data with
     | c :: _ => c.isDigit
     | [] => false)

/-- The good-sentence filter of `generate_basic_questions`: strip; skip if
shorter than 30 characters, starting with structural noise, or containing
fewer than 3 spaces. -/
def goodSentence (s : String) : Option String :=
  let t := pyStrip s
  if t.length < 30 ∨ noiseStart t ∨ countSpaces t < 3 then none else some t

/-- `\w` character class (ASCII): alphanumeric or underscore. -/
def isWordChar (c : Char) : Bool := c.isAlphanum || c = '_'

/-- The alternatives of the figure-reference pattern
`\b(figure|fig\.|diagram|graph|chart|table|image)\b`. -/
def figWords : List (List Char) :=
  ["figure", "fig.", "diagram", "graph", "chart", "table", "image"].map String.data

/-- Whether one alternative `w` matches at the start of `rest`, with `prev`
the character preceding the match site: both `\b` boundaries must hold
(a boundary sits between a word character and a non-word character). -/
def figMatchAt (prev : Option Char) (rest : List Char) (w : List Char) : Bool :=
  w.isPrefixOf rest &&
    (match prev with
     | none => true
     | some p => !isWordChar p) &&
    (match w.getLast? with
     | none => false
     | some lastc =>
       let after := rest.drop w.length
       if isWordChar lastc then
         match after with
         | [] => true
         | a :: _ => !isWordChar a
       else
         match after with
         | [] => false
         | a :: _ => isWordChar a)

/-- Scan for the figure-reference pattern anywhere in the character list. -/
def figScan (prev : Option Char) : List Char → Bool
  | [] => false
  | c :: cs => figWords.any (figMatchAt prev (c :: cs)) || figScan (some c) cs

/-- `re.search(r'\b(figure|fig\.|diagram|graph|chart|table|image)\b', s, re.IGNORECASE)`. -/
def hasFigureRef (s : String) : Bool := figScan none (pyLower s).data

/-- The `reference_note` of the generation loop: the sentence, prefixed with
a visual-elements note when it mentions a figure/diagram. -/
def referenceNote (s : String) : String :=
  if hasFigureRef s then
    "[Note: This content may reference visual elements from the original document]\n\n" ++ s
  else s

/-- `re.sub(r'[^\w]', '', word)`. -/
def cleanWordOf (w : String) : String := ⟨w.data.filter isWordChar⟩

/-- Python `str.isalnum` (ASCII): non-empty and all alphanumeric. -/
def pyIsAlnumStr (s : String) : Bool := !s.data.isEmpty && s.data.all Char.isAlphanum

/-- Python `str.isdigit` (ASCII): non-empty and all digits. -/
def pyIsDigitStr (s : String) : Bool := !s.data.isEmpty && s.data.all Char.isDigit

/-- `' '.join(parts)`. -/
def pyJoin (sep : String) : List String → String
  | [] => ""
  | [x] => x
  | x :: y :: rest => x ++ (sep ++ pyJoin sep (y :: rest))

/-- `create_fill_blank(sentence)`.  `choose` is the oracle standing for
`random.choice` on the important-word list: it yields an index, taken modulo
the (non-empty) list length. -/
def create_fill_blank (choose : List (Nat × String) → Nat) (sentence : String) :
    Option (String × String) :=
  let words := pySplitWs sentence
  if words.length < 6 then none
  else
    let importantWords :=
      (words.enum.filter fun p =>
        let clean := cleanWordOf p.2
        decide (5 < clean.length) && pyIsAlnumStr clean && !pyIsDigitStr clean &&
          decide (0 < p.1) && decide (p.1 < words.length - 1)).map
        fun p => (p.1, cleanWordOf p.2)
    if importantWords = [] then none
    else
      let j := choose importantWords % importantWords.length
      let pick := importantWords.getD j (0, "")
      let questionText0 :=
        pyJoin " " (words.take pick.1 ++ ["_____"] ++ words.drop (pick.1 + 1))
      let questionText :=
        if 200 < questionText0.length then pyTake 200 questionText0 ++ "..." else questionText0
      some (questionText, pick.2)

/-- The four question templates, applied by index `i % 4` to sentence `s`
(with its figure-annotated reference note), as in the generation loop of
`generate_basic_questions`; the fill-blank template may fail, in which case
no question is appended. -/
def templateQuestion (choose : List (Nat × String) → Nat) (i : Nat) (s : String) :
    Option GenQuestion :=
  let note := referenceNote s
  if i % 4 = 0 then
    some ⟨"Which statement best describes the following?\n" ++ pyTake 200 s ++ "...",
      "Correct", "mcq", ["Correct", "Incorrect", "Partially correct", "Cannot determine"], note⟩
  else if i % 4 = 1 then
    match create_fill_blank choose s with
    | none => none
    | some (qt, ans) => some ⟨qt, ans, "fill_blank", [], note⟩
  else if i % 4 = 2 then
    some ⟨"The following statement is true: " ++ pyTake 150 s ++ "...",
      "True", "true_false", ["True", "False"], note⟩
  else
    some ⟨"Explain the concept: " ++ pyTake 120 s ++ "...", pyTake 200 s, "short_answer", [], note⟩

/-- The question-building loop of `generate_basic_questions` over the
enumerated candidate sentences, with early exit once `maxQuestions`
questions have been collected. -/
def buildQuestions (choose : List (Nat × String) → Nat) (maxQuestions : Nat) :
    List (Nat × String) → List GenQuestion → List GenQuestion
  | [], acc => acc
  | (i, s) :: rest, acc =>
    if maxQuestions ≤ acc.length then acc
    else
      match templateQuestion choose i s with
      | none => buildQuestions choose maxQuestions rest acc
      | some qr => buildQuestions choose maxQuestions rest (acc ++ [qr])

/-- Worker for `padToCount`: append `mk (current length + 1)` exactly `k`
times; `k` is the iteration count of the source's `while` loop. -/
def padGo (mk : Nat → GenQuestion) : Nat → List GenQuestion → List GenQuestion
  | 0, qs => qs
  | k + 1, qs => padGo mk k (qs ++ [mk (qs.length + 1)])

/-- `while len(questions) < max_questions: questions.append(mk(len+1))` —
the padding loops of both generators, with `mk` the placeholder builder. -/
def padToCount (mk : Nat → GenQuestion) (maxQuestions : Nat)
    (qs : List GenQuestion) : List GenQuestion :=
  padGo mk (maxQuestions - qs.length) qs

/-- The generic placeholder appended by `generate_basic_questions` when it
runs out of candidate sentences; `n` is the new question's 1-based index. -/
def genericQuestion (n : Nat) : GenQuestion :=
  ⟨"What are the key takeaways from the study material? (Topic " ++ toString n ++ ")",
    "Refer to the study material for comprehensive understanding", "short_answer", [],
    "This question requires comprehensive review of the uploaded document."⟩

/-- The minimal question replicated `max_questions` times when no good
sentence survives the filter. -/
def minimalQuestion : GenQuestion :=
  ⟨"Based on the content provided, what are the key concepts discussed?",
    "Please refer to the study material", "short_answer", [],
    "Please review the uploaded document for details."⟩

/-- `generate_basic_questions(text, max_questions)`.  `shuffle` is the oracle
for `random.shuffle(good_sentences)` and `choose` the oracle for
`random.choice` inside `create_fill_blank`. -/
def generate_basic_questions (shuffle : List String → List String)
    (choose : List (Nat × String) → Nat) (text : String) (maxQuestions : Nat) :
    List GenQuestion :=
  if text = "" then []
  else
    let sentences := splitSentences text
    let goodSentences := sentences.filterMap goodSentence
    if goodSentences = [] then List.replicate maxQuestions minimalQuestion
    else
      let shuffled := shuffle goodSentences
      let built := buildQuestions choose maxQuestions ((shuffled.take (maxQuestions * 2)).enum) []
      (padToCount genericQuestion maxQuestions built).take maxQuestions

/-- One item of the parsed `questions` array of the Gemini response: a JSON
dict whose relevant keys may each be absent (`Option`), read through the
`.get` fallback chains of `generate_questions_from_text`. -/
structure RawQ where
  q : Option String
  question_text : Option String
  answer : Option String
  correct_answer : Option String
  qtype : Option String
  question_type : Option String
  options : Option (List String)
  ref : Option String
  reference_text : Option String

/-- Outcome of the Gemini question-synthesis call followed by code-fence
stripping and `json.loads`: the call raised (`err`), the JSON parse raised
(`badJSON`), or a `questions` list was extracted (`ok`, with
`result.get('questions', [])` already applied). -/
inductive AIOutcome where
  | err : AIOutcome
  | badJSON : AIOutcome
  | ok : List RawQ → AIOutcome

/-- Oracle for the external Gemini question-synthesis service: `available`
models the truthiness of `genai`, `respond` the call on the prompt built
from the given text. -/
structure GenAIEnv where
  available : Bool
  respond : String → AIOutcome

/-- The per-item conversion of `generate_questions_from_text`:
`q.get('q', q.get('question_text', ''))` and so on. -/
def convertRaw (rq : RawQ) : GenQuestion :=
  ⟨rq.q.getD (rq.question_text.getD ""),
    rq.answer.getD (rq.correct_answer.getD ""),
    rq.qtype.getD (rq.question_type.getD "text"),
    rq.options.getD [],
    rq.ref.getD (rq.reference_text.getD "")⟩

/-- The padding placeholder of the AI path (its dict carries no
`reference_text` key; the later read defaults it to `""`). -/
def aiPlaceholder (n : Nat) : GenQuestion :=
  ⟨"Question " ++ toString n ++ " based on content.",
    "Answer based on content", "short_answer", [], ""⟩

/-- `generate_questions_from_text(text, max_questions)`.  `shuffleQ` is the
oracle for `random.shuffle(questions)` on the parsed AI items. -/
def generate_questions_from_text (env : GenAIEnv)
    (shuffleQ : List RawQ → List RawQ) (shuffle : List String → List String)
    (choose : List (Nat × String) → Nat) (text : String) (maxQuestions : Nat) :
    List GenQuestion :=
  if text = "" then []
  else if env.available = false then generate_basic_questions shuffle choose text maxQuestions
  else
    match env.respond text with
    | .err => generate_basic_questions shuffle choose text maxQuestions
    | .badJSON => generate_basic_questions shuffle choose text maxQuestions
    | .ok questions =>
      let shuffled := shuffleQ questions
      let formatted := (shuffled.take maxQuestions).map convertRaw
      (padToCount aiPlaceholder maxQuestions formatted).take maxQuestions

/-- The persistence loop of `student_quiz_upload`:
`for idx, q in enumerate(questions, 1): QuizQuestion.objects.create(question_number=idx, ...)`. -/
def persistQuestions (qs : List GenQuestion) : List (Nat × GenQuestion) :=
  qs.enum.map fun p => (p.1 + 1, p.2)

/-! ### Grading and result analysis (`student_submit_quiz`, `student_quiz_results`) -/

/-- The grading loop of `student_submit_quiz` over (question, raw POST
answer) pairs: strip the answer; an empty answer is marked incorrect without
verification, otherwise the verifier decides; `score` counts correct
answers and `acc` accumulates the persisted `(question_type, is_correct)`
data in question order. -/
def gradeLoop (env : AIEnv) (pdfContent : String) :
    List (Question × String) → Nat → List (String × Bool) → Nat × List (String × Bool)
  | [], score, acc => (score, acc)
  | (q, a0) :: rest, score, acc =>
    let a := pyStrip a0
    if a = "" then gradeLoop env pdfContent rest score (acc ++ [(q.question_type, false)])
    else
      let v := verify env q a pdfContent
      gradeLoop env pdfContent rest (score + if v.correct then 1 else 0)
        (acc ++ [(q.question_type, v.correct)])

/-- The quantities persisted on the quiz by `student_submit_quiz`. -/
structure QuizResult where
  score : Nat
  total : Nat
  percentage : ℚ
  graded : List (String × Bool)
deriving Repr

/-- `student_submit_quiz`: grade every question, then
`percentage = (score / total * 100) if total > 0 else 0`. -/
def submitQuiz (env : AIEnv) (pdfContent : String)
    (qas : List (Question × String)) : QuizResult :=
  let total := qas.length
  let sg := gradeLoop env pdfContent qas 0 []
  ⟨sg.1, total, if 0 < total then (sg.1 : ℚ) / total * 100 else 0, sg.2⟩

/-- One step of the per-type statistics dict of `student_quiz_results`:
entries are `(question_type, correct, total)` in first-occurrence order
(Python dict insertion order). -/
def bumpStat (t : String) (c : Bool) :
    List (String × Nat × Nat) → List (String × Nat × Nat)
  | [] => [(t, (if c then 1 else 0), 1)]
  | e :: rest =>
    if e.1 = t then (e.1, e.2.1 + (if c then 1 else 0), e.2.2 + 1) :: rest
    else e :: bumpStat t c rest

/-- The `type_stats` accumulation loop of `student_quiz_results`. -/
def typeStats (graded : List (String × Bool)) : List (String × Nat × Nat) :=
  graded.foldl (fun st p => bumpStat p.1 p.2 st) []

/-- `accuracy = (stats['correct'] / stats['total'] * 100) if stats['total'] > 0 else 0`. -/
def accuracyOf (corr tot : Nat) : ℚ :=
  if 0 < tot then (corr : ℚ) / tot * 100 else 0

/-- Worker for `pyTitle`: `prevCased` records whether the previous character
was a (ASCII) letter. -/
def titleAux (prevCased : Bool) : List Char → List Char
  | [] => []
  | c :: cs =>
    if c.isAlpha then
      (if prevCased then c.toLower else c.toUpper) :: titleAux true cs
    else c :: titleAux false cs

/-- Python `str.title()` (ASCII). -/
def pyTitle (s : String) : String := ⟨titleAux false s.data⟩

/-- `qtype.replace('_', ' ').title()` — the display name of a question type. -/
def typeName (t : String) : String :=
  pyTitle ⟨t.data.map fun c => if c = '_' then ' ' else c⟩

/-- The weak/strong area classification loop of `student_quiz_results`:
`accuracy < 60` appends to weak areas, `elif accuracy >= 80` to strong. -/
def weakStrong (stats : List (String × Nat × Nat)) : List String × List String :=
  stats.foldl
    (fun ws e =>
      let accuracy := accuracyOf e.2.1 e.2.2
      if accuracy < 60 then (ws.1 ++ [typeName e.1], ws.2)
      else if 80 ≤ accuracy then (ws.1, ws.2 ++ [typeName e.1])
      else ws)
    ([], [])

/-! ### Supporting lemmas -/

theorem str_ne_empty_iff (s : String) : s ≠ "" ↔ s.data ≠ [] := by
  cases s with
  | mk d => simp [String.ext_iff]

theorem str_append_ne_left (a b : String) (h : a ≠ "") : a ++ b ≠ "" := by
  rw [str_ne_empty_iff] at h ⊢
  simpa using fun h' _ => h h'

theorem str_append_ne_right (a b : String) (h : b ≠ "") : a ++ b ≠ "" := by
  rw [str_ne_empty_iff] at h ⊢
  simpa using fun _ h' => h h'

/-! ### C3: empty or whitespace-only submissions -/

/-- C3: for every question (any type) and every submitted answer that is
empty or whitespace-only, the verifier returns incorrect with the
"no answer provided" reason, and issues no external service call. -/
theorem verify_empty_answer (env : AIEnv) (q : Question) (a pdfContent : String)
    (h : pyStrip a = "") :
    verify env q a pdfContent = ⟨false, "No answer provided", 0⟩ := by
  simp [verify, h]

/-- Witness for `verify_empty_answer` on a whitespace-only submission. -/
theorem verify_empty_answer_witness :
    pyStrip "   " = "" ∧
      verify noAI ⟨"mcq", "q", "A"⟩ "   " "ref" = ⟨false, "No answer provided", 0⟩ :=
  ⟨by decide, verify_empty_answer noAI ⟨"mcq", "q", "A"⟩ "   " "ref" (by decide)⟩

/-! ### C10: empty input text -/

/-- C10: on empty input text both generators return the empty list — zero
questions, not `N` placeholders; the exactly-`N` guarantee is conditional
on non-empty text. -/
theorem empty_text_yields_no_questions (env : GenAIEnv)
    (shuffleQ : List RawQ → List RawQ) (shuffle : List String → List String)
    (choose : List (Nat × String) → Nat) (N : Nat) :
    generate_basic_questions shuffle choose "" N = [] ∧
      generate_questions_from_text env shuffleQ shuffle choose "" N = [] := by
  constructor
  · simp [generate_basic_questions]
  · simp [generate_questions_from_text]

/-! ### C8: verifier determinism -/

/-- C8: the verifier is deterministic — its (correctness, reason) result is
a function of the (question, submitted answer, reference text) arguments
and of the external service's availability and response on the single
determined query; two calls whose environments agree there agree entirely.
In particular two calls under one fixed environment coincide. -/
theorem verify_deterministic (e₁ e₂ : AIEnv) (q : Question) (a pdfContent : String)
    (hav : e₁.available = e₂.available)
    (hresp : e₁.respond pdfContent q.question_text (pyStrip q.correct_answer) (pyStrip a)
      = e₂.respond pdfContent q.question_text (pyStrip q.correct_answer) (pyStrip a)) :
    verify e₁ q a pdfContent = verify e₂ q a pdfContent := by
  simp only [verify]
  rw [hav, hresp]

/-- Witness for `verify_deterministic` at a concrete call. -/
theorem verify_deterministic_witness :
    verify noAI ⟨"short_answer", "q", "alpha beta"⟩ "gamma words" "ref"
      = verify noAI ⟨"short_answer", "q", "alpha beta"⟩ "gamma words" "ref" :=
  verify_deterministic noAI noAI ⟨"short_answer", "q", "alpha beta"⟩ "gamma words" "ref"
    rfl rfl

/-! ### C4: multiple-choice verification -/

/-- Counterexample to C4 as stated: the MCQ verifier strips surrounding
whitespace from both the submitted and the expected answer before
comparing, so a submission that differs from the expected answer only by a
leading space is marked correct although it is not byte-identical. -/
theorem verify_mcq_not_byte_identical :
    (verify noAI ⟨"mcq", "q", "Break problems into subproblems"⟩
        " Break problems into subproblems" "").correct = true ∧
      " Break problems into subproblems" ≠ "Break problems into subproblems" := by
  constructor
  · decide
  · decide

/-- C4 (amended): for every multiple-choice question and non-empty submitted
answer, the verifier returns correct iff the whitespace-stripped submitted
string equals the whitespace-stripped expected answer, with no further
normalization — comparison is case-sensitive, so a case-differing
submission is incorrect; no external call is issued. -/
theorem verify_mcq_exact (env : AIEnv) (q : Question) (a pdfContent : String)
    (ht : q.question_type = "mcq") (ha : pyStrip a ≠ "") :
    ((verify env q a pdfContent).correct = true ↔ pyStrip a = pyStrip q.correct_answer) ∧
      (verify env q a pdfContent).reason = "Exact match required for MCQ" ∧
      (verify env q a pdfContent).aiCalls = 0 := by
  simp [verify, ht, ha]

/-- Witness for `verify_mcq_exact`: the spec's case-sensitivity example, a
lowercase submission against a capitalized expected answer, is incorrect. -/
theorem verify_mcq_exact_witness :
    pyStrip "break problems into subproblems" ≠ "" ∧
      (verify noAI ⟨"mcq", "q", "Break problems into subproblems"⟩
        "break problems into subproblems" "").correct = false := by
  refine ⟨by decide, ?_⟩
  have h := verify_mcq_exact noAI ⟨"mcq", "q", "Break problems into subproblems"⟩
    "break problems into subproblems" "" rfl (by decide)
  have hne : pyStrip "break problems into subproblems"
      ≠ pyStrip (Question.correct_answer ⟨"mcq", "q", "Break problems into subproblems"⟩) := by
    decide
  rcases h with ⟨hiff, -⟩
  cases hc : (verify noAI ⟨"mcq", "q", "Break problems into subproblems"⟩
      "break problems into subproblems" "").correct
  · rfl
  · exact absurd (hiff.mp hc) hne

/-! ### C9: fill-in-blank with a short expected answer -/

/-- C9: for a fill-in-blank question whose normalized expected answer has no
token longer than 2 characters, the verifier's result is correct iff the
normalized submitted answer equals the normalized expected answer; the
substring, word-overlap, AI and keyword tiers are never reached (no
external call, and the verdict is exactly the exact-match tier's). -/
theorem verify_fill_blank_short_expected (env : AIEnv) (q : Question)
    (a pdfContent : String) (ht : q.question_type = "fill_blank")
    (ha : pyStrip a ≠ "")
    (hcw : wordsGT 2 (normQ (pyStrip q.correct_answer)) = []) :
    verify env q a pdfContent =
      if normQ (pyStrip q.correct_answer) = normQ (pyStrip a)
      then ⟨true, "Answer matches expected response", 0⟩
      else ⟨false, "Exact match required", 0⟩ := by
  by_cases he : normQ (pyStrip q.correct_answer) = normQ (pyStrip a)
  · simp [verify, ht, ha, he]
  · simp [verify, ht, ha, he, hcw]

/-- Witness for `verify_fill_blank_short_expected`: expected `"ab"`
normalizes with no token longer than 2 characters, and the non-matching
submission `"xab"` is judged incorrect by the exact-match tier alone. -/
theorem verify_fill_blank_short_expected_witness :
    pyStrip "xab" ≠ "" ∧ wordsGT 2 (normQ (pyStrip "ab")) = [] ∧
      verify noAI ⟨"fill_blank", "q", "ab"⟩ "xab" "ref"
        = ⟨false, "Exact match required", 0⟩ := by
  refine ⟨by decide, by decide, ?_⟩
  have h := verify_fill_blank_short_expected noAI ⟨"fill_blank", "q", "ab"⟩ "xab" "ref"
    rfl (by decide) (by decide)
  rw [h]
  decide

theorem setCard_pos (l : List String) (h : l ≠ []) : 0 < setCard l := by
  cases l with
  | nil => exact absurd rfl h
  | cons x xs => simp [setCard, pyDedup, pyDedupGo]

/-! ### C5: the fill-in-blank cascade -/

/-- Counterexample to C5 as stated: with expected answer `"ab"` (whose
normalized form has no token longer than 2 characters) and submission
`"xab"`, the normalized expected string is contained in the normalized
submitted string, yet the verifier returns incorrect — the substring tier
is skipped because the word-set guard returns first. -/
theorem verify_fb_substring_counterexample :
    (verify noAI ⟨"fill_blank", "q", "ab"⟩ "xab" "ref").correct = false ∧
      strContains (normQ (pyStrip "xab")) (normQ (pyStrip "ab")) = true ∧
      normQ (pyStrip "ab") ≠ normQ (pyStrip "xab") := by
  refine ⟨by decide, by decide, by decide⟩

/-- C5 (amended): for every fill-in-blank question whose normalized expected
answer has at least one token longer than 2 characters, and every non-empty
submission: a normalization-exact match is correct; otherwise substring
containment either way is correct; otherwise overlap ratio ≥ 0.8 with
non-empty intersection is correct (with no external call); and an empty
intersection is incorrect immediately, before any external AI call. -/
theorem verify_fill_blank_cascade (env : AIEnv) (q : Question) (a pdfContent : String)
    (ht : q.question_type = "fill_blank") (ha : pyStrip a ≠ "")
    (hcw : wordsGT 2 (normQ (pyStrip q.correct_answer)) ≠ []) :
    (normQ (pyStrip q.correct_answer) = normQ (pyStrip a) →
      verify env q a pdfContent = ⟨true, "Answer matches expected response", 0⟩) ∧
    (normQ (pyStrip q.correct_answer) ≠ normQ (pyStrip a) →
      (strContains (normQ (pyStrip a)) (normQ (pyStrip q.correct_answer)) = true ∨
        strContains (normQ (pyStrip q.correct_answer)) (normQ (pyStrip a)) = true) →
      verify env q a pdfContent = ⟨true, "Answer contains expected response", 0⟩) ∧
    (normQ (pyStrip q.correct_answer) ≠ normQ (pyStrip a) →
      ¬(strContains (normQ (pyStrip a)) (normQ (pyStrip q.correct_answer)) = true ∨
        strContains (normQ (pyStrip q.correct_answer)) (normQ (pyStrip a)) = true) →
      (0.8 : ℚ) ≤ (interCard (wordsGT 2 (normQ (pyStrip q.correct_answer)))
          (wordsGT 2 (normQ (pyStrip a))) : ℚ)
        / (setCard (wordsGT 2 (normQ (pyStrip q.correct_answer))) : ℚ) →
      0 < interCard (wordsGT 2 (normQ (pyStrip q.correct_answer)))
          (wordsGT 2 (normQ (pyStrip a))) →
      (verify env q a pdfContent).correct = true ∧
        (verify env q a pdfContent).aiCalls = 0) ∧
    (normQ (pyStrip q.correct_answer) ≠ normQ (pyStrip a) →
      ¬(strContains (normQ (pyStrip a)) (normQ (pyStrip q.correct_answer)) = true ∨
        strContains (normQ (pyStrip q.correct_answer)) (normQ (pyStrip a)) = true) →
      interCard (wordsGT 2 (normQ (pyStrip q.correct_answer)))
          (wordsGT 2 (normQ (pyStrip a))) = 0 →
      verify env q a pdfContent = ⟨false, "Answer does not match expected response", 0⟩) := by
  have hcc : 0 < setCard (wordsGT 2 (normQ (pyStrip q.correct_answer))) := setCard_pos _ hcw
  refine ⟨?_, ?_, ?_, ?_⟩
  · intro he
    simp [verify, ht, ha, he]
  · intro he hsub
    simp [verify, ht, ha, he, hcw, hsub]
  · intro he hsub hr hcom
    simp [verify, ht, ha, he, hcw, hsub, hcc, hr, hcom]
  · intro he hsub hcom0
    simp [verify, ht, ha, he, hcw, hsub, hcom0]

/-- Witness for `verify_fill_blank_cascade`: the spec's example — expected
`"binary search tree"`, submitted `"Binary Search Tree!"` — matches exactly
after normalization and is judged correct. -/
theorem verify_fill_blank_cascade_witness :
    pyStrip "Binary Search Tree!" ≠ "" ∧
      wordsGT 2 (normQ (pyStrip "binary search tree")) ≠ [] ∧
      verify noAI ⟨"fill_blank", "q", "binary search tree"⟩ "Binary Search Tree!" "ref"
        = ⟨true, "Answer matches expected response", 0⟩ := by
  refine ⟨by decide, by decide, ?_⟩
  exact (verify_fill_blank_cascade noAI ⟨"fill_blank", "q", "binary search tree"⟩
    "Binary Search Tree!" "ref" rfl (by decide) (by decide)).1 (by decide)

/-! ### C6: short-answer keyword fallback -/

/-- C6: for a short-answer question that is not resolved by the
normalization-exact tier and whose external semantic check is unavailable
(service not configured, empty reference content) or fails (call raises or
response unparseable), the final fallback judges correctness by keyword
overlap on tokens longer than 3 characters: correct iff the overlap ratio
over the expected keyword set is at least 0.4; when the expected keyword
set is empty, correct iff the stripped submission is longer than
10 characters. -/
theorem verify_short_answer_fallback (env : AIEnv) (q : Question) (a pdfContent : String)
    (ht : q.question_type = "short_answer") (ha : pyStrip a ≠ "")
    (hne : normQ (pyStrip q.correct_answer) ≠ normQ (pyStrip a))
    (hai : env.available = false ∨ pdfContent = "" ∨
      env.respond pdfContent q.question_text (pyStrip q.correct_answer) (pyStrip a) = none) :
    (kwSet (pyStrip q.correct_answer) = [] →
      ((verify env q a pdfContent).correct = true ↔ 10 < (pyStrip a).length)) ∧
    (kwSet (pyStrip q.correct_answer) ≠ [] →
      ((verify env q a pdfContent).correct = true ↔
        (0.4 : ℚ) ≤ (interCard (kwSet (pyStrip q.correct_answer)) (kwSet (pyStrip a)) : ℚ)
          / ((kwSet (pyStrip q.correct_answer)).length : ℚ))) := by
  have hform : verify env q a pdfContent
      = shortAnswerFallback q (pyStrip a) (pyStrip q.correct_answer)
        (if env.available = true ∧ pdfContent ≠ "" then 1 else 0) := by
    rcases hai with h | h | h
    · simp [verify, ht, ha, hne, h]
    · simp [verify, ht, ha, hne, h]
    · by_cases hcond : env.available = true ∧ pdfContent ≠ ""
      · simp [verify, ht, ha, hne, hcond, h]
      · simp [verify, ht, ha, hne, hcond]
  constructor
  · intro hk
    rw [hform]
    simp [shortAnswerFallback, ht, hk]
  · intro hk
    rw [hform]
    by_cases hr : (0.4 : ℚ) ≤ (interCard (kwSet (pyStrip q.correct_answer)) (kwSet (pyStrip a)) : ℚ)
      / ((kwSet (pyStrip q.correct_answer)).length : ℚ)
    · simp [shortAnswerFallback, ht, hk, hr]
    · simp [shortAnswerFallback, ht, hk, hr]

/-- Witness for `verify_short_answer_fallback`: the spec's example — expected
`"Makes locally optimal choices at each step"`, submitted
`"chooses the locally optimal option each time"` — has keyword overlap
ratio 1/2 ≥ 0.4 and is judged correct with no service configured. -/
theorem verify_short_answer_fallback_witness :
    pyStrip "chooses the locally optimal option each time" ≠ "" ∧
      kwSet (pyStrip "Makes locally optimal choices at each step") ≠ [] ∧
      (verify noAI ⟨"short_answer", "q", "Makes locally optimal choices at each step"⟩
        "chooses the locally optimal option each time" "ref").correct = true := by
  refine ⟨by decide, by decide, ?_⟩
  refine ((verify_short_answer_fallback noAI
      ⟨"short_answer", "q", "Makes locally optimal choices at each step"⟩
      "chooses the locally optimal option each time" "ref" rfl (by decide) (by decide)
      (Or.inl rfl)).2 (by decide)).mpr ?_
  have h1 : interCard
      (kwSet (pyStrip (Question.mk "short_answer" "q"
        "Makes locally optimal choices at each step").correct_answer))
      (kwSet (pyStrip "chooses the locally optimal option each time")) = 3 := by decide
  have h2 : (kwSet (pyStrip (Question.mk "short_answer" "q"
      "Makes locally optimal choices at each step").correct_answer)).length = 6 := by decide
  rw [h1, h2]
  norm_num

/-! ### C2: degradation to the heuristic generator -/

/-- C2: whenever the external generative service is not configured
(`available = false`), its call raises any error, or its response fails
JSON parsing, `generate_questions_from_text` returns exactly the result of
`generate_basic_questions` on the same text and target count — no partial
AI output is retained and no error escapes. -/
theorem ai_failure_delegates (env : GenAIEnv) (shuffleQ : List RawQ → List RawQ)
    (shuffle : List String → List String) (choose : List (Nat × String) → Nat)
    (text : String) (N : Nat)
    (h : env.available = false ∨ env.respond text = .err ∨ env.respond text = .badJSON) :
    generate_questions_from_text env shuffleQ shuffle choose text N
      = generate_basic_questions shuffle choose text N := by
  by_cases htext : text = ""
  · subst htext
    simp [generate_questions_from_text, generate_basic_questions]
  · rcases h with h | h | h
    · simp [generate_questions_from_text, htext, h]
    · simp [generate_questions_from_text, htext, h]
    · simp [generate_questions_from_text, htext, h]

/-- Witness for `ai_failure_delegates`: a service whose call always raises
delegates to the heuristic generator. -/
theorem ai_failure_delegates_witness :
    generate_questions_from_text ⟨true, fun _ => .err⟩ id id (fun _ => 0) "Some text here." 25
      = generate_basic_questions id (fun _ => 0) "Some text here." 25 :=
  ai_failure_delegates ⟨true, fun _ => .err⟩ id id (fun _ => 0) "Some text here." 25
    (Or.inr (Or.inl rfl))

/-! ### C7: scoring and per-type analysis -/

/-- Specification of one grading-loop step: the `(question_type, is_correct)`
record the loop persists for one (question, raw answer) pair. -/
def stepGrade (env : AIEnv) (pdfContent : String) (qa : Question × String) :
    String × Bool :=
  if pyStrip qa.2 = "" then (qa.1.question_type, false)
  else (qa.1.question_type, (verify env qa.1 (pyStrip qa.2) pdfContent).correct)

theorem gradeLoop_spec (env : AIEnv) (pdfContent : String) :
    ∀ (l : List (Question × String)) (s : Nat) (acc : List (String × Bool)),
    gradeLoop env pdfContent l s acc
      = (s + (l.map (stepGrade env pdfContent)).countP (fun p => p.2),
          acc ++ l.map (stepGrade env pdfContent)) := by
  intro l
  induction l with
  | nil => intro s acc; simp [gradeLoop]
  | cons qa rest ih =>
    intro s acc
    obtain ⟨q, a0⟩ := qa
    by_cases h : pyStrip a0 = ""
    · rw [show gradeLoop env pdfContent ((q, a0) :: rest) s acc
          = gradeLoop env pdfContent rest s (acc ++ [(q.question_type, false)]) by
          simp [gradeLoop, h]]
      rw [ih]
      simp [stepGrade, h, List.countP_cons]
    · rw [show gradeLoop env pdfContent ((q, a0) :: rest) s acc
          = gradeLoop env pdfContent rest
              (s + if (verify env q (pyStrip a0) pdfContent).correct then 1 else 0)
              (acc ++ [(q.question_type, (verify env q (pyStrip a0) pdfContent).correct)]) by
          simp [gradeLoop, h]]
      rw [ih]
      refine Prod.ext ?_ ?_
      · simp only [stepGrade, h, if_neg h, List.map_cons, List.countP_cons]
        cases (verify env q (pyStrip a0) pdfContent).correct <;> (simp; try omega)
      · simp [stepGrade, h]

/-- The (correct, total) statistics pair recorded for type `t`, defaulting
to `(0, 0)` when `t` has no entry. -/
def statOf (st : List (String × Nat × Nat)) (t : String) : Nat × Nat :=
  match st with
  | [] => (0, 0)
  | e :: rest => if e.1 = t then e.2 else statOf rest t

theorem statOf_bumpStat (t' : String) (c : Bool) (st : List (String × Nat × Nat))
    (t : String) :
    statOf (bumpStat t' c st) t =
      if t' = t then ((statOf st t).1 + (if c then 1 else 0), (statOf st t).2 + 1)
      else statOf st t := by
  induction st with
  | nil => by_cases h : t' = t <;> simp [bumpStat, statOf, h]
  | cons e rest ih =>
    by_cases h1 : e.1 = t'
    · by_cases h2 : t' = t
      · simp [bumpStat, statOf, h1, h2, h1.trans h2]
      · have : e.1 ≠ t := fun hc => h2 (h1 ▸ hc)
        simp [bumpStat, statOf, h1, h2, this]
    · by_cases h2 : e.1 = t
      · have h3 : t ≠ t' := fun hc => h1 (h2.trans hc)
        simp [bumpStat, statOf, h1, h2, h3, Ne.symm h3]
      · simp [bumpStat, statOf, h1, h2, ih]

theorem statOf_typeStats_aux :
    ∀ (l : List (String × Bool)) (st : List (String × Nat × Nat)) (t : String),
    statOf (l.foldl (fun st p => bumpStat p.1 p.2 st) st) t
      = ((statOf st t).1 + l.countP (fun p => decide (p.1 = t) && p.2),
          (statOf st t).2 + l.countP (fun p => decide (p.1 = t))) := by
  intro l
  induction l with
  | nil => intro st t; simp
  | cons p rest ih =>
    intro st t
    rw [List.foldl_cons, ih, statOf_bumpStat]
    by_cases h : p.1 = t
    · cases hc : p.2 <;> simp [h, hc, List.countP_cons] <;> omega
    · simp [h, List.countP_cons]

/-- Correct/total statistics for every type in one pass over the graded
list. -/
theorem statOf_typeStats (graded : List (String × Bool)) (t : String) :
    statOf (typeStats graded) t
      = (graded.countP (fun p => decide (p.1 = t) && p.2),
          graded.countP (fun p => decide (p.1 = t))) := by
  have h := statOf_typeStats_aux graded [] t
  simpa [typeStats, statOf] using h

theorem weakStrong_aux :
    ∀ (stats : List (String × Nat × Nat)) (ws : List String × List String),
    stats.foldl
        (fun ws e =>
          let accuracy := accuracyOf e.2.1 e.2.2
          if accuracy < 60 then (ws.1 ++ [typeName e.1], ws.2)
          else if 80 ≤ accuracy then (ws.1, ws.2 ++ [typeName e.1])
          else ws)
        ws
      = (ws.1 ++ (stats.filter (fun e => decide (accuracyOf e.2.1 e.2.2 < 60))).map
            (fun e => typeName e.1),
          ws.2 ++ (stats.filter (fun e =>
              !decide (accuracyOf e.2.1 e.2.2 < 60) && decide ((80 : ℚ) ≤ accuracyOf e.2.1 e.2.2))).map
            (fun e => typeName e.1)) := by
  intro stats
  induction stats with
  | nil => intro ws; simp
  | cons e rest ih =>
    intro ws
    by_cases h1 : accuracyOf e.2.1 e.2.2 < 60
    · simp only [List.foldl_cons, h1, if_pos h1, ih, List.filter_cons]
      simp [h1]
    · by_cases h2 : (80 : ℚ) ≤ accuracyOf e.2.1 e.2.2
      · simp only [List.foldl_cons, ih, List.filter_cons]
        simp [h1, h2]
      · simp only [List.foldl_cons, ih, List.filter_cons]
        simp [h1, h2]

/-- The `elif accuracy >= 80` guard is equivalent to plain `accuracy ≥ 80`,
because `80 ≤ accuracy` already excludes `accuracy < 60`. -/
theorem strongGuard_eq (e : String × Nat × Nat) :
    (!decide (accuracyOf e.2.1 e.2.2 < 60) && decide ((80 : ℚ) ≤ accuracyOf e.2.1 e.2.2))
      = decide ((80 : ℚ) ≤ accuracyOf e.2.1 e.2.2) := by
  by_cases h : (80 : ℚ) ≤ accuracyOf e.2.1 e.2.2
  · have hn : ¬(accuracyOf e.2.1 e.2.2 < 60) := not_lt.mpr (le_trans (by norm_num) h)
    simp [h, hn]
  · simp [h]

/-- C7: after grading a quiz, the persisted score counts exactly the
questions marked correct; the percentage is score/total × 100 and 0 when
the quiz is empty; every question type that appears has statistics
(correct-in-type, total-in-type) counting its graded occurrences (per-type
accuracy `accuracyOf` = correct-in-type / total-in-type × 100); and the
weak (resp. strong) area list consists of exactly the present types with
accuracy < 60% (resp. ≥ 80%). -/
theorem scoring_and_areas (env : AIEnv) (pdfContent : String)
    (qas : List (Question × String)) (r : QuizResult)
    (hr : r = submitQuiz env pdfContent qas) :
    r.score = (r.graded.filter (fun p => p.2)).length ∧
    r.total = qas.length ∧
    (r.total = 0 → r.percentage = 0) ∧
    (0 < r.total → r.percentage = (r.score : ℚ) / (r.total : ℚ) * 100) ∧
    (∀ t : String, (∃ p ∈ r.graded, p.1 = t) →
      statOf (typeStats r.graded) t
          = (r.graded.countP (fun p => decide (p.1 = t) && p.2),
              r.graded.countP (fun p => decide (p.1 = t))) ∧
        0 < r.graded.countP (fun p => decide (p.1 = t))) ∧
    (weakStrong (typeStats r.graded)).1
        = ((typeStats r.graded).filter (fun e => decide (accuracyOf e.2.1 e.2.2 < 60))).map
            (fun e => typeName e.1) ∧
    (weakStrong (typeStats r.graded)).2
        = ((typeStats r.graded).filter (fun e => decide ((80 : ℚ) ≤ accuracyOf e.2.1 e.2.2))).map
            (fun e => typeName e.1) := by
  subst hr
  have hgl := gradeLoop_spec env pdfContent qas 0 []
  refine ⟨?_, ?_, ?_, ?_, ?_, ?_, ?_⟩
  · simp [submitQuiz, hgl, List.countP_eq_length_filter]
  · simp [submitQuiz]
  · intro h
    simp [submitQuiz] at h ⊢
    simp [h]
  · intro h
    have h' : 0 < qas.length := by simpa [submitQuiz] using h
    simp [submitQuiz, h']
  · intro t ht
    refine ⟨statOf_typeStats _ t, ?_⟩
    rw [List.countP_pos_iff]
    obtain ⟨p, hp, hpt⟩ := ht
    exact ⟨p, hp, by simp [hpt]⟩
  · unfold weakStrong
    rw [weakStrong_aux]
    simp
  · unfold weakStrong
    rw [weakStrong_aux]
    simp only [List.nil_append]
    congr 1
    exact List.filter_congr (fun e _ => strongGuard_eq e)

/-- A concrete 10-question quiz submission: 7 correct MCQ answers and 3
incorrect ones. -/
def demoSubmission : List (Question × String) :=
  List.replicate 7 ((⟨"mcq", "q", "A"⟩ : Question), "A") ++
    List.replicate 3 ((⟨"mcq", "q", "A"⟩ : Question), "B")

/-- Witness for `scoring_and_areas`: the spec's example quiz — 10 questions,
7 marked correct — scores 7 with percentage 70, and its single type (at
accuracy 70%) is in neither the weak nor the strong list. -/
theorem scoring_and_areas_witness :
    (submitQuiz noAI "" demoSubmission).score = 7 ∧
      (submitQuiz noAI "" demoSubmission).percentage = 70 ∧
      statOf (typeStats (submitQuiz noAI "" demoSubmission).graded) "mcq" = (7, 10) ∧
      (weakStrong (typeStats (submitQuiz noAI "" demoSubmission).graded)).1 = [] ∧
      (weakStrong (typeStats (submitQuiz noAI "" demoSubmission).graded)).2 = [] := by
  obtain ⟨h1, h2, h3, h4, h5, h6, h7⟩ :=
    scoring_and_areas noAI "" demoSubmission (submitQuiz noAI "" demoSubmission) rfl
  have hsc : (submitQuiz noAI "" demoSubmission).score = 7 := by
    rw [h1]; decide
  have htot : (submitQuiz noAI "" demoSubmission).total = 10 := by
    rw [h2]; decide
  refine ⟨hsc, ?_, ?_, ?_, ?_⟩
  · rw [h4 (by rw [htot]; norm_num), hsc, htot]
    norm_num
  · rw [(h5 "mcq" ⟨("mcq", true), by decide⟩).1]
    decide
  · rw [h6]
    have hst : typeStats (submitQuiz noAI "" demoSubmission).graded = [("mcq", 7, 10)] := by
      decide
    rw [hst]
    have hacc : accuracyOf (7 : Nat) (10 : Nat) = 70 := by
      norm_num [accuracyOf]
    simp [hacc]
    norm_num
  · rw [h7]
    have hst : typeStats (submitQuiz noAI "" demoSubmission).graded = [("mcq", 7, 10)] := by
      decide
    rw [hst]
    have hacc : accuracyOf (7 : Nat) (10 : Nat) = 70 := by
      norm_num [accuracyOf]
    simp [hacc]
    norm_num

/-! ### C1: exact question counts and persisted positions -/

theorem padGo_length (mk : Nat → GenQuestion) :
    ∀ (k : Nat) (qs : List GenQuestion), (padGo mk k qs).length = qs.length + k := by
  intro k
  induction k with
  | zero => intro qs; simp [padGo]
  | succ n ih =>
    intro qs
    rw [show padGo mk (n + 1) qs = padGo mk n (qs ++ [mk (qs.length + 1)]) from rfl, ih]
    simp
    omega

theorem mem_padGo (mk : Nat → GenQuestion) :
    ∀ (k : Nat) (qs : List GenQuestion) (q : GenQuestion),
    q ∈ padGo mk k qs → q ∈ qs ∨ ∃ n, q = mk n := by
  intro k
  induction k with
  | zero => intro qs q h; exact Or.inl h
  | succ n ih =>
    intro qs q h
    rw [show padGo mk (n + 1) qs = padGo mk n (qs ++ [mk (qs.length + 1)]) from rfl] at h
    rcases ih _ q h with h' | h'
    · rcases List.mem_append.mp h' with h'' | h''
      · exact Or.inl h''
      · exact Or.inr ⟨qs.length + 1, by simpa using h''⟩
    · exact Or.inr h'

theorem pyJoin_ne (sep : String) :
    ∀ (l : List String) (x : String), x ∈ l → x ≠ "" → pyJoin sep l ≠ "" := by
  intro l
  induction l with
  | nil => intro x hx; cases hx
  | cons y ys ih =>
    intro x hx hne
    cases ys with
    | nil =>
      have hxy : x = y := by simpa using hx
      show pyJoin sep [y] ≠ ""
      rw [show pyJoin sep [y] = y from rfl]
      exact hxy ▸ hne
    | cons z zs =>
      show y ++ (sep ++ pyJoin sep (z :: zs)) ≠ ""
      rcases List.mem_cons.mp hx with h | h
      · exact str_append_ne_left _ _ (h ▸ hne)
      · exact str_append_ne_right _ _ (str_append_ne_right _ _ (ih x h hne))

theorem create_fill_blank_text_ne (choose : List (Nat × String) → Nat) (s qt ans : String)
    (h : create_fill_blank choose s = some (qt, ans)) : qt ≠ "" := by
  unfold create_fill_blank at h
  dsimp only [] at h
  split at h
  · exact absurd h (by simp)
  · split at h
    · exact absurd h (by simp)
    · rw [Option.some_inj] at h
      have hqt := congrArg Prod.fst h
      simp only at hqt
      rw [← hqt]
      split
      · exact str_append_ne_right _ _ (by decide)
      · apply pyJoin_ne _ _ "_____" ?_ (by decide)
        simp

theorem templateQuestion_spec (choose : List (Nat × String) → Nat) (i : Nat) (s : String)
    (q : GenQuestion) (h : templateQuestion choose i s = some q) :
    q.question_text ≠ "" ∧
      q.question_type ∈ (["mcq", "fill_blank", "true_false", "short_answer"] : List String) := by
  unfold templateQuestion at h
  by_cases h0 : i % 4 = 0
  · rw [if_pos h0, Option.some_inj] at h
    subst h
    exact ⟨str_append_ne_right _ _ (by decide), by simp⟩
  · rw [if_neg h0] at h
    by_cases h1 : i % 4 = 1
    · rw [if_pos h1] at h
      cases hcf : create_fill_blank choose s with
      | none => rw [hcf] at h; exact absurd h (by simp)
      | some p =>
        obtain ⟨qt, ans⟩ := p
        rw [hcf, Option.some_inj] at h
        subst h
        exact ⟨create_fill_blank_text_ne choose s qt ans hcf, by simp⟩
    · rw [if_neg h1] at h
      by_cases h2 : i % 4 = 2
      · rw [if_pos h2, Option.some_inj] at h
        subst h
        exact ⟨str_append_ne_right _ _ (by decide), by simp⟩
      · rw [if_neg h2, Option.some_inj] at h
        subst h
        exact ⟨str_append_ne_right _ _ (by decide), by simp⟩

theorem mem_buildQuestions (choose : List (Nat × String) → Nat) (N : Nat) :
    ∀ (items : List (Nat × String)) (acc : List GenQuestion) (q : GenQuestion),
    q ∈ buildQuestions choose N items acc →
      q ∈ acc ∨ ∃ i s, templateQuestion choose i s = some q := by
  intro items
  induction items with
  | nil => intro acc q h; exact Or.inl h
  | cons p rest ih =>
    intro acc q h
    obtain ⟨i, s⟩ := p
    by_cases hlen : N ≤ acc.length
    · rw [show buildQuestions choose N ((i, s) :: rest) acc = acc from by
        simp [buildQuestions, hlen]] at h
      exact Or.inl h
    · cases htq : templateQuestion choose i s with
      | none =>
        rw [show buildQuestions choose N ((i, s) :: rest) acc
            = buildQuestions choose N rest acc from by
          simp [buildQuestions, hlen, htq]] at h
        exact ih acc q h
      | some qr =>
        rw [show buildQuestions choose N ((i, s) :: rest) acc
            = buildQuestions choose N rest (acc ++ [qr]) from by
          simp [buildQuestions, hlen, htq]] at h
        rcases ih _ q h with h' | h'
        · rcases List.mem_append.mp h' with h'' | h''
          · exact Or.inl h''
          · refine Or.inr ⟨i, s, ?_⟩
            have : q = qr := by simpa using h''
            rw [this]
            exact htq
        · exact Or.inr h'

theorem basic_length (shuffle : List String → List String)
    (choose : List (Nat × String) → Nat) (text : String) (N : Nat) (h : text ≠ "") :
    (generate_basic_questions shuffle choose text N).length = N := by
  simp only [generate_basic_questions, if_neg h]
  by_cases hg : (splitSentences text).filterMap goodSentence = []
  · rw [if_pos hg]
    simp
  · rw [if_neg hg]
    rw [List.length_take, padToCount, padGo_length]
    omega

theorem basic_members (shuffle : List String → List String)
    (choose : List (Nat × String) → Nat) (text : String) (N : Nat) (h : text ≠ "") :
    ∀ q ∈ generate_basic_questions shuffle choose text N,
      q.question_text ≠ "" ∧
        q.question_type ∈ (["mcq", "fill_blank", "true_false", "short_answer"] : List String) := by
  intro q hq
  simp only [generate_basic_questions, if_neg h] at hq
  by_cases hg : (splitSentences text).filterMap goodSentence = []
  · rw [if_pos hg] at hq
    rw [List.eq_of_mem_replicate hq]
    exact ⟨by decide, by decide⟩
  · rw [if_neg hg] at hq
    have hq' := (List.take_subset _ _) hq
    rw [padToCount] at hq'
    rcases mem_padGo _ _ _ _ hq' with h' | h'
    · rcases mem_buildQuestions choose N _ _ _ h' with h'' | h''
      · cases h''
      · obtain ⟨i, s, hts⟩ := h''
        exact templateQuestion_spec choose i s q hts
    · obtain ⟨n, hn⟩ := h'
      subst hn
      refine ⟨str_append_ne_left _ _ (str_append_ne_left _ _ (by decide)), by
        simp [genericQuestion]⟩

theorem genText_length (env : GenAIEnv) (shuffleQ : List RawQ → List RawQ)
    (shuffle : List String → List String) (choose : List (Nat × String) → Nat)
    (text : String) (N : Nat) (h : text ≠ "") :
    (generate_questions_from_text env shuffleQ shuffle choose text N).length = N := by
  simp only [generate_questions_from_text, if_neg h]
  by_cases ha : env.available = false
  · rw [if_pos ha]
    exact basic_length shuffle choose text N h
  · rw [if_neg ha]
    cases ho : env.respond text with
    | err => exact basic_length shuffle choose text N h
    | badJSON => exact basic_length shuffle choose text N h
    | ok qs =>
      dsimp only []
      rw [List.length_take, padToCount, padGo_length]
      omega

theorem persist_positions (qs : List GenQuestion) :
    (persistQuestions qs).map Prod.fst = (List.range qs.length).map (· + 1) := by
  rw [persistQuestions, List.map_map]
  have h1 : (Prod.fst ∘ fun p : Nat × GenQuestion => (p.1 + 1, p.2))
      = (fun n => n + 1) ∘ Prod.fst := rfl
  rw [h1, ← List.map_map, List.enum_map_fst]

/-- C1: for every target count `N` and non-empty extracted text, the
heuristic generator returns exactly `N` question records, each with a
non-empty prompt and one of the four (non-null) question types; and every
output of the generation entry point (AI-backed or heuristic, after
padding/truncation) has length exactly `N`, with persisted question numbers
forming exactly the duplicate-free set `{1, …, N}`. -/
theorem generated_count_and_positions (N : Nat) (shuffle : List String → List String)
    (choose : List (Nat × String) → Nat) (text : String) (h : text ≠ "") :
    ((generate_basic_questions shuffle choose text N).length = N ∧
      ∀ q ∈ generate_basic_questions shuffle choose text N,
        q.question_text ≠ "" ∧
          q.question_type ∈ (["mcq", "fill_blank", "true_false", "short_answer"] : List String)) ∧
    ∀ (env : GenAIEnv) (shuffleQ : List RawQ → List RawQ),
      (generate_questions_from_text env shuffleQ shuffle choose text N).length = N ∧
      ((persistQuestions (generate_questions_from_text env shuffleQ shuffle choose text N)).map
        Prod.fst).Nodup ∧
      ∀ k, k ∈ (persistQuestions
          (generate_questions_from_text env shuffleQ shuffle choose text N)).map Prod.fst
        ↔ 1 ≤ k ∧ k ≤ N := by
  refine ⟨⟨basic_length shuffle choose text N h, basic_members shuffle choose text N h⟩, ?_⟩
  intro env shuffleQ
  have hlen := genText_length env shuffleQ shuffle choose text N h
  have hpos := persist_positions (generate_questions_from_text env shuffleQ shuffle choose text N)
  rw [hlen] at hpos
  refine ⟨hlen, ?_, ?_⟩
  · rw [hpos]
    exact (List.nodup_range N).map (fun a b hab => by omega)
  · intro k
    rw [hpos]
    constructor
    · intro hk
      simp only [List.mem_map, List.mem_range] at hk
      obtain ⟨a, ha, hak⟩ := hk
      omega
    · intro hk
      simp only [List.mem_map, List.mem_range]
      exact ⟨k - 1, by omega, by omega⟩

/-- Witness for `generated_count_and_positions` on a concrete non-empty
text with no external service: exactly 25 questions either way. -/
theorem generated_count_and_positions_witness :
    "hello" ≠ "" ∧
      (generate_basic_questions id (fun _ => 0) "hello" 25).length = 25 ∧
      (generate_questions_from_text ⟨false, fun _ => AIOutcome.err⟩ id id (fun _ => 0)
        "hello" 25).length = 25 ∧
      ((persistQuestions (generate_questions_from_text ⟨false, fun _ => AIOutcome.err⟩ id id
        (fun _ => 0) "hello" 25)).map Prod.fst).Nodup := by
  have h := generated_count_and_positions 25 id (fun _ => 0) "hello" (by decide)
  exact ⟨by decide, h.1.1, (h.2 ⟨false, fun _ => AIOutcome.err⟩ id).1,
    (h.2 ⟨false, fun _ => AIOutcome.err⟩ id).2.1⟩
